import Mathlib

/-
Verification of the taskiq-postgresql core against its specification.

The development shallowly embeds the relevant parts of the repository:
the SQL statement builder (taskiq_postgresql/abc/query.py), the drivers
(taskiq_postgresql/drivers/_asyncpg.py, _psqlpy.py, _psycopg.py), the driver
selection utilities (taskiq_postgresql/utils/get_db_driver.py,
get_db_listen_driver.py) and the broker (taskiq_postgresql/broker.py).

Pure Python string building becomes Lean string functions; Python code that
may raise becomes Except-valued functions; the database table becomes an
explicit list of rows, and each SQL statement an atomic transformation of
that list (the specification delegates cross-process mutual exclusion to the
storage engine, which serializes single-statement row operations).
-/

namespace TaskiqPostgresql

/-- Python exception kinds raised by the embedded code. -/
inductive PyErr where
  | valueError (msg : String)
  | typeError (msg : String)
  | importError (msg : String)
deriving Repr, DecidableEq

/-- Column descriptor, from `Column.__init__` in abc/query.py: name, SQL type,
nullable flag, default expression, primary-key flag. -/
structure Column where
  name : String
  type_ : String
  nullable : Bool := false
  default : Option String := none
  primary_key : Bool := false
deriving Repr, DecidableEq

/-- `Column.make_query` from abc/query.py: the column definition clause. -/
def Column.make_query (c : Column) : String :=
  let parts := [c.name, c.type_]
  let parts := if c.nullable then parts else parts ++ ["NOT NULL"]
  let parts := match c.default with
    | some d => parts ++ ["DEFAULT " ++ d]
    | none => parts
  let parts := if c.primary_key then parts ++ ["PRIMARY KEY"] else parts
  String.intercalate " " parts

/-- An element handed to Python's `str.join`: either an actual `str`, or a
`Column` object (any non-string object makes `join` raise `TypeError`). -/
inductive PyJoinItem where
  | str (s : String)
  | column (c : Column)
deriving Repr, DecidableEq

/-- Helper for `py_str_join`: check every item is a `str`, indexed as Python
reports it. -/
def py_str_items : List PyJoinItem → Nat → Except PyErr (List String)
  | [], _ => Except.ok []
  | PyJoinItem.str s :: rest, i =>
    (py_str_items rest (i + 1)).map (fun tail => s :: tail)
  | PyJoinItem.column _ :: rest, i =>
    let _ := rest
    Except.error (PyErr.typeError
      ("sequence item " ++ toString i ++ ": expected str instance, Column found"))

/-- Python's `sep.join(items)`: concatenates string items with the separator,
raising `TypeError` on the first non-string item. -/
def py_str_join (sep : String) (items : List PyJoinItem) : Except PyErr String :=
  (py_str_items items 0).map (String.intercalate sep)

/-- `CreateTableQuery.make_query` from abc/query.py. -/
def CreateTableQuery.make_query (table_name : String) (columns : List Column) : String :=
  "CREATE TABLE IF NOT EXISTS " ++ table_name ++ " ("
    ++ String.intercalate ", " (columns.map Column.make_query) ++ ")"

/-- `InsertQuery.make_query` from abc/query.py: column list, positional
placeholders produced by `range(1, len(columns) + 1)`, and an optional
RETURNING clause when (and only when) `returning is not None`. -/
def InsertQuery.make_query (table_name : String) (columns : List Column)
    (returning : Option (List Column) := none) : String :=
  "INSERT INTO " ++ table_name ++ " ("
    ++ String.intercalate ", " (columns.map Column.name)
    ++ ") VALUES ("
    ++ String.intercalate ", "
        ((List.range columns.length).map (fun i => "$" ++ toString (i + 1)))
    ++ ")"
    ++ (match returning with
        | some ret => " RETURNING " ++ String.intercalate ", " (ret.map Column.name)
        | none => "")

/-- The `on_conflict_action` literal of `InsertOrUpdateQuery.make_query`. -/
inductive OnConflictAction where
  | update
  | nothing
deriving Repr, DecidableEq

/-- `InsertOrUpdateQuery.make_query` from abc/query.py.  The UPDATE branch
requires `on_conflict_update_columns` and otherwise raises `ValueError`.
The NOTHING branch joins the `Column` objects themselves
(`', '.join(on_conflict_columns)`), which is where Python's `str.join`
raises `TypeError` for a non-empty column list. -/
def InsertOrUpdateQuery.make_query (table_name : String) (columns : List Column)
    (returning : Option (List Column))
    (on_conflict_columns : List Column)
    (on_conflict_action : OnConflictAction := OnConflictAction.update)
    (on_conflict_update_columns : Option (List Column) := none) :
    Except PyErr String :=
  let insert_query := InsertQuery.make_query table_name columns none
  let returning_query := match returning with
    | some ret => " RETURNING " ++ String.intercalate ", " (ret.map Column.name)
    | none => ""
  match on_conflict_action with
  | OnConflictAction.update =>
    match on_conflict_update_columns with
    | none =>
      Except.error (PyErr.valueError
        "on_conflict_update_columns is required when on_conflict_action is UPDATE")
    | some upd =>
      let set_query := String.intercalate ", "
        (upd.map (fun c => c.name ++ " = EXCLUDED." ++ c.name))
      let conflict_query := String.intercalate ", " (on_conflict_columns.map Column.name)
      let update_query :=
        "ON CONFLICT (" ++ conflict_query ++ ") DO UPDATE SET " ++ set_query
      Except.ok (insert_query ++ " " ++ update_query ++ " " ++ returning_query)
  | OnConflictAction.nothing =>
    (py_str_join ", " (on_conflict_columns.map PyJoinItem.column)).map
      (fun joined =>
        insert_query ++ " ON CONFLICT (" ++ joined ++ ") DO NOTHING" ++ returning_query)

/-- `DeleteQuery.make_query` from abc/query.py. -/
def DeleteQuery.make_query (table_name : String) (column : Column) : String :=
  "DELETE FROM " ++ table_name ++ " WHERE " ++ column.name ++ " = $1"

/-- `DeleteReturningQuery.make_query` from abc/query.py. -/
def DeleteReturningQuery.make_query (table_name : String) (where_column : Column)
    (returning : List Column) : String :=
  "DELETE FROM " ++ table_name ++ " WHERE " ++ where_column.name ++ " = $1 "
    ++ "RETURNING " ++ String.intercalate ", " (returning.map Column.name)

/-- `DeleteByDateQuery.make_query` from abc/query.py: a fixed two-parameter
inclusive range predicate. -/
def DeleteByDateQuery.make_query (table_name : String) (column : Column) : String :=
  "DELETE FROM " ++ table_name ++ " WHERE " ++ column.name ++ " BETWEEN $1 AND $2"

/-- `SelectQuery.make_query` from abc/query.py. -/
def SelectQuery.make_query (table_name : String) (columns : List Column)
    (where_columns : Option (List Column) := none) : String :=
  "SELECT " ++ String.intercalate ", " (columns.map Column.name)
    ++ " FROM " ++ table_name ++ " "
    ++ (match where_columns with
        | some ws =>
          "WHERE " ++ String.intercalate " AND "
            ((List.enumFrom 1 ws).map (fun p => p.2.name ++ " = $" ++ toString p.1))
        | none => "")

/-- A SQL value stored in or returned from the message table.  `null` models
SQL NULL (surfaced as Python `None` by every client library). -/
inductive SqlValue where
  | int (n : Int)
  | str (s : String)
  | bytes (b : List Nat)
  | null
deriving Repr, DecidableEq

/-- One row of the broker's message table (§3 of the spec, `Table` in
broker.py): surrogate integer key, task identifier, task name, opaque byte
payload (nullable in anomalous rows), labels, server-assigned creation
timestamp (modelled as an integer instant). -/
structure MessageRow where
  id : Int
  task_id : String
  task_name : String
  message : Option (List Nat)
  labels : List (String × String)
  created_at : Int
deriving Repr, DecidableEq

/-- Field access by column name, as the client libraries expose a fetched row. -/
def MessageRow.get : MessageRow → String → SqlValue
  | r, "id" => SqlValue.int r.id
  | r, "task_id" => SqlValue.str r.task_id
  | r, "task_name" => SqlValue.str r.task_name
  | r, "message" =>
    match r.message with
    | some b => SqlValue.bytes b
    | none => SqlValue.null
  | r, "created_at" => SqlValue.int r.created_at
  | _, _ => SqlValue.null

/-- The message table: the list of currently stored rows. -/
abbrev Db : Type := List MessageRow

/-- A fetched row as the drivers return it: the dictionary
`{column.name: row[column.name] for column in returning}`. -/
abbrev RowDict : Type := List (String × SqlValue)

/-- Python `dict.get(name)`: `none` when the key is absent. -/
def dict_get (row : RowDict) (name : String) : Option SqlValue :=
  (List.find? (fun kv => kv.1 == name) row).map (fun kv => kv.2)

/-- `delete_returning` (`AsyncpgDriver.delete_returning` and its psqlpy and
psycopg counterparts): executes the single atomic statement
`DELETE FROM t WHERE c = $1 RETURNING ...` on the table.  All rows whose
column equals the bound value are removed (SQL `=` is never true against
NULL); the returned dictionary projects the requested columns of the first
returned row, or `none` when no row matched. -/
def delete_returning (db : Db) (where_column : Column) (value : SqlValue)
    (returning : List Column) : Option RowDict × Db :=
  let matches_ := fun (row : MessageRow) =>
    !(value == SqlValue.null) && row.get where_column.name == value
  let matched := List.filter matches_ db
  let remaining := List.filter (fun row => !(matches_ row)) db
  (matched.head?.map (fun row => returning.map (fun c => (c.name, row.get c.name))),
   remaining)

/-- The primary-key column configured by the broker (`Table.primary_key`). -/
def primary_key_column : Column :=
  { name := "id", type_ := "SERIAL", primary_key := true }

/-- The message column configured by the broker (`Table.message`). -/
def message_column : Column :=
  { name := "message", type_ := "BYTEA" }

/-- The created-at column (`CreatedAtColumn` in abc/query.py). -/
def created_at_column : Column :=
  { name := "created_at", type_ := "TIMESTAMP WITH TIME ZONE",
    default := some "NOW()" }

/-- A Python value as returned by a driver method (used where the embedded
code can return values of several runtime types). -/
inductive PyValue where
  | none
  | int (n : Int)
  | bool (b : Bool)
  | str (s : String)
deriving Repr, DecidableEq

/-- Rows matching `SELECT 1 FROM t WHERE id = $1` for a given key. -/
def rows_with_id (db : Db) (key : Int) : List MessageRow :=
  List.filter (fun row => row.get primary_key_column.name == SqlValue.int key) db

/-- `AsyncpgDriver.exists`: returns `connection.fetchval` of
`SELECT 1 FROM t WHERE id = $1` directly — the integer `1` when a row
matches, Python `None` when none does. -/
def asyncpg_exists (db : Db) (key : Int) : PyValue :=
  match (rows_with_id db key).head? with
  | some _ => PyValue.int 1
  | none => PyValue.none

/-- `PsqlpyDriver.exists`: fetches the matching rows and returns
`len(v) == 1`, an actual boolean. -/
def psqlpy_exists (db : Db) (key : Int) : Bool :=
  (rows_with_id db key).length == 1

/-- `PsycopgDriver.exists`: fetches one row; absent row gives `False`,
a present row gives `bool(next(iter(value)))`, that is `bool(1) = True`. -/
def psycopg_exists (db : Db) (key : Int) : Bool :=
  match (rows_with_id db key).head? with
  | some _ => true
  | none => false

/-- SQL three-valued truth. -/
inductive SqlBool where
  | tru
  | fls
  | unk
deriving Repr, DecidableEq

/-- SQL `<=` over possibly-NULL operands: comparison with NULL is unknown. -/
def sql_le (a b : Option Int) : SqlBool :=
  match a, b with
  | some x, some y => if x ≤ y then SqlBool.tru else SqlBool.fls
  | _, _ => SqlBool.unk

/-- Kleene conjunction for SQL three-valued logic. -/
def sql_and (a b : SqlBool) : SqlBool :=
  match a, b with
  | SqlBool.fls, _ => SqlBool.fls
  | _, SqlBool.fls => SqlBool.fls
  | SqlBool.tru, SqlBool.tru => SqlBool.tru
  | _, _ => SqlBool.unk

/-- SQL `x BETWEEN lo AND hi`, equivalent to `lo <= x AND x <= hi`. -/
def sql_between (x lo hi : Option Int) : SqlBool :=
  sql_and (sql_le lo x) (sql_le x hi)

/-- `DELETE FROM t WHERE created_at BETWEEN $1 AND $2` executed with bound
values `lo` and `hi`: a row is removed exactly when the predicate evaluates
to SQL true. -/
def delete_by_date_rows (db : Db) (lo hi : Option Int) : Db :=
  List.filter
    (fun row => !(sql_between (some row.created_at) lo hi == SqlBool.tru)) db

/-- `AsyncpgDriver.delete_by_date`: binds `from_date` and `to_date` as the
two parameters of the fixed predicate; an omitted `to_date` is passed through
as `None`, hence bound as SQL NULL. -/
def asyncpg_delete_by_date (db : Db) (from_date : Int)
    (to_date : Option Int := none) : Db :=
  delete_by_date_rows db (some from_date) to_date

/-- `PsqlpyDriver.delete_by_date`: same statement, parameters passed as the
tuple `(from_date, to_date)` with `to_date` defaulting to `None`. -/
def psqlpy_delete_by_date (db : Db) (from_date : Int)
    (to_date : Option Int := none) : Db :=
  delete_by_date_rows db (some from_date) to_date

/-- `PsycopgDriver.delete_by_date`: same statement, parameters
`[from_date, to_date]` with `to_date` defaulting to `None`. -/
def psycopg_delete_by_date (db : Db) (from_date : Int)
    (to_date : Option Int := none) : Db :=
  delete_by_date_rows db (some from_date) to_date

/-- Which optional client libraries are importable in the runtime environment
(utils/libs_available.py). -/
structure Availability where
  asyncpg : Bool
  psqlpy : Bool
  psycopg : Bool
deriving Repr, DecidableEq

/-- The concrete Driver classes exported by taskiq_postgresql.drivers. -/
inductive DriverClass where
  | asyncpgDriver
  | psqlpyDriver
  | psycopgDriver
deriving Repr, DecidableEq

/-- The concrete Listen Driver classes exported by taskiq_postgresql.drivers. -/
inductive ListenDriverClass where
  | asyncpgListenDriver
  | psqlpyListenDriver
  | psycopgListenDriver
deriving Repr, DecidableEq

/-- `from taskiq_postgresql.drivers import <name>`: the package imports each
backend module only when its client library is available
(drivers/__init__.py), so importing the name of an unavailable backend raises
`ImportError`. -/
def import_from_drivers (available : Bool) {α : Type} (cls : α) (cls_name : String) :
    Except PyErr α :=
  if available then Except.ok cls
  else Except.error (PyErr.importError
    ("cannot import name " ++ cls_name ++ " from taskiq_postgresql.drivers"))

/-- The message of the `ImportError` re-raised by the selection utilities:
`f"{driver} is not installed. Please install it with pip install
taskiq-postgresql[{driver}]."` (whitespace collapsed). -/
def not_installed_message (driver : String) : String :=
  driver ++ (" is not installed. Please install it with pip install taskiq-postgresql["
    ++ (driver ++ "]."))

/-- The message of the `ValueError` raised for an unknown tag. -/
def unsupported_message (driver : String) : String :=
  "Driver " ++ driver ++ " is not supported."

/-- `get_db_driver` from utils/get_db_driver.py: the if-chain inside a
`try` block whose `except ImportError` re-raises a normalized `ImportError`,
falling through to a `ValueError` for unknown tags. -/
def get_db_driver (avail : Availability) (driver : String) : Except PyErr DriverClass :=
  let body : Except PyErr (Option DriverClass) :=
    if driver == "asyncpg" then
      (import_from_drivers avail.asyncpg DriverClass.asyncpgDriver "AsyncpgDriver").map
        (fun c => some c)
    else if driver == "psqlpy" then
      (import_from_drivers avail.psqlpy DriverClass.psqlpyDriver "PsqlpyDriver").map
        (fun c => some c)
    else if driver == "psycopg" then
      (import_from_drivers avail.psycopg DriverClass.psycopgDriver "PsycopgDriver").map
        (fun c => some c)
    else Except.ok none
  match body with
  | Except.ok (some c) => Except.ok c
  | Except.ok none => Except.error (PyErr.valueError (unsupported_message driver))
  | Except.error (PyErr.importError _) =>
    Except.error (PyErr.importError (not_installed_message driver))
  | Except.error e => Except.error e

/-- `get_db_listen_driver` from utils/get_db_listen_driver.py: same shape,
returning the Listen Driver class of the backend. -/
def get_db_listen_driver (avail : Availability) (driver : String) :
    Except PyErr ListenDriverClass :=
  let body : Except PyErr (Option ListenDriverClass) :=
    if driver == "asyncpg" then
      (import_from_drivers avail.asyncpg ListenDriverClass.asyncpgListenDriver
        "AsyncpgListenDriver").map (fun c => some c)
    else if driver == "psqlpy" then
      (import_from_drivers avail.psqlpy ListenDriverClass.psqlpyListenDriver
        "PsqlpyListenDriver").map (fun c => some c)
    else if driver == "psycopg" then
      (import_from_drivers avail.psycopg ListenDriverClass.psycopgListenDriver
        "PsycopgListenDriver").map (fun c => some c)
    else Except.ok none
  match body with
  | Except.ok (some c) => Except.ok c
  | Except.ok none => Except.error (PyErr.valueError (unsupported_message driver))
  | Except.error (PyErr.importError _) =>
    Except.error (PyErr.importError (not_installed_message driver))
  | Except.error e => Except.error e

/-- The Driver / Listen Driver pairing of the supported backend tags
(spec §6: a string tag selects a matching implementation pair). -/
def supported_backend (driver : String) : Option (DriverClass × ListenDriverClass) :=
  if driver == "asyncpg" then
    some (DriverClass.asyncpgDriver, ListenDriverClass.asyncpgListenDriver)
  else if driver == "psqlpy" then
    some (DriverClass.psqlpyDriver, ListenDriverClass.psqlpyListenDriver)
  else if driver == "psycopg" then
    some (DriverClass.psycopgDriver, ListenDriverClass.psycopgListenDriver)
  else none

/-- Whether the client library of a supported tag is importable. -/
def backend_available (avail : Availability) (driver : String) : Bool :=
  if driver == "asyncpg" then avail.asyncpg
  else if driver == "psqlpy" then avail.psqlpy
  else if driver == "psycopg" then avail.psycopg
  else false

/-- A channel payload as delivered to the process: asyncpg and psqlpy enqueue
Python ints, psycopg's sequence yields the payload string. -/
inductive NotifyPayload where
  | int (n : Int)
  | str (s : String)
deriving Repr, DecidableEq

/-- Decimal digit value of a character, if it is one. -/
def digit_value (c : Char) : Option Nat :=
  if '0' ≤ c ∧ c ≤ '9' then some (c.toNat - 48) else none

/-- Accumulate decimal digits; any non-digit fails the parse. -/
def parse_digits_aux : List Char → Nat → Option Nat
  | [], acc => some acc
  | c :: cs, acc =>
    match digit_value c with
    | some d => parse_digits_aux cs (acc * 10 + d)
    | none => none

/-- Parse a non-empty run of decimal digits. -/
def parse_digits : List Char → Option Nat
  | [] => none
  | cs => parse_digits_aux cs 0

/-- Strip leading and trailing whitespace from a character list. -/
def strip_chars (cs : List Char) : List Char :=
  ((cs.dropWhile Char.isWhitespace).reverse.dropWhile Char.isWhitespace).reverse

/-- Python `int(s)` on a string: surrounding whitespace is ignored, an
optional sign precedes a non-empty run of decimal digits; anything else
raises `ValueError`. -/
def py_int_parse (s : String) : Option Int :=
  match strip_chars s.data with
  | '-' :: rest => (parse_digits rest).map (fun n => -(n : Int))
  | '+' :: rest => (parse_digits rest).map (fun n => (n : Int))
  | rest => (parse_digits rest).map (fun n => (n : Int))

/-- Python `int(x)` on a payload: an int passes through, a string is parsed
as an optionally signed decimal integer; anything else raises `ValueError`. -/
def py_int (p : NotifyPayload) : Except PyErr Int :=
  match p with
  | NotifyPayload.int n => Except.ok n
  | NotifyPayload.str s =>
    match py_int_parse s with
    | some n => Except.ok n
    | none =>
      Except.error (PyErr.valueError ("invalid literal for int with base 10: " ++ s))

/-- `AsyncpgListenDriver._notification_handler`: the subscription callback,
called with the payload text of a NOTIFY; it executes
`self._queue.put_nowait(int(payload))`.  The result is the queue after the
call, or the exception the call raises. -/
def asyncpg_notification_handler (queue : List Int) (payload : String) :
    Except PyErr (List Int) :=
  (py_int (NotifyPayload.str payload)).map (fun n => queue ++ [n])

/-- `PsqlpyListenDriver._notification_handler`: identical body,
`self._queue.put_nowait(int(payload))` on the payload string. -/
def psqlpy_notification_handler (queue : List Int) (payload : String) :
    Except PyErr (List Int) :=
  (py_int (NotifyPayload.str payload)).map (fun n => queue ++ [n])

/-- `PsycopgListenDriver._notification_handler`: identical body on
`notify.payload`, `self._queue.put_nowait(int(notify.payload))`. -/
def psycopg_notification_handler (queue : List Int) (payload : String) :
    Except PyErr (List Int) :=
  (py_int (NotifyPayload.str payload)).map (fun n => queue ++ [n])

/-- A message handed to `PostgresqlBroker.kick`: the fields the broker reads,
with `labels_delay` the already-parsed `int(message.labels.get("delay"))`
when the label is present. -/
structure BrokerMessage where
  task_id : String
  task_name : String
  message : List Nat
  labels_delay : Option Int
deriving Repr, DecidableEq

/-- An observable action of `kick`: the row insert (returning the generated
key), or the publish of a NOTIFY statement at a monotonic-clock instant. -/
inductive KickEvent where
  | insert (task_id task_name : String) (message : List Nat) (returned_id : Int)
  | notify (at_time : Int) (statement : String)
deriving Repr, DecidableEq

/-- The raw statement executed by `PostgresqlBroker._send_notification`:
`f"NOTIFY \x7bself.channel_name\x7d, \x27\x7bmessage_id\x7d\x27"`. -/
def notify_statement (channel : String) (message_id : Int) : String :=
  "NOTIFY " ++ channel ++ ", \x27" ++ toString message_id ++ "\x27"

/-- `PostgresqlBroker._send_notification`: publish now. -/
def send_notification (channel : String) (now : Int) (message_id : Int) :
    List KickEvent :=
  [KickEvent.notify now (notify_statement channel message_id)]

/-- `PostgresqlBroker._schedule_notification`: register a one-shot callback at
`loop.time() + delay_seconds` which performs `_send_notification` then. -/
def schedule_notification (channel : String) (now : Int) (message_id : Int)
    (delay_seconds : Int) : List KickEvent :=
  send_notification channel (now + delay_seconds) message_id

/-- `PostgresqlBroker.kick`: insert the message row requesting the primary
key back, then either schedule the notification after the delay label or send
it immediately.  `now` is the monotonic clock at the time of the call and
`new_id` the key generated by the insert. -/
def kick (channel : String) (msg : BrokerMessage) (now : Int) (new_id : Int) :
    List KickEvent :=
  let insert_event :=
    KickEvent.insert msg.task_id msg.task_name msg.message new_id
  match msg.labels_delay with
  | some delay_seconds =>
    insert_event :: schedule_notification channel now new_id delay_seconds
  | none => insert_event :: send_notification channel now new_id

/-- The outcome of the broker's `driver.delete_returning` call for one
notification: the fetched dictionary (or `None`), or a raised exception. -/
inductive ClaimOutcome where
  | ok (row : Option RowDict)
  | raise (e : String)

/-- `row.get(self.columns.message.name)` in `PostgresqlBroker.listen`: Python
`None` both when the key is absent from the dictionary and when the stored
value is SQL NULL. -/
def row_message (row : RowDict) (name : String) : Option SqlValue :=
  match dict_get row name with
  | none => none
  | some SqlValue.null => none
  | some v => some v

/-- One iteration of the body of `PostgresqlBroker.listen` for one payload:
the inner `try` absorbs a parse failure into a logged skip; an absent claim
result and a missing message value are skips; a raised exception propagates
to the outer handler; a claimed payload is yielded. -/
def listen_iteration (claim : Int → ClaimOutcome) (p : NotifyPayload) :
    Except String (Option SqlValue) :=
  match py_int p with
  | Except.error _ => Except.ok none
  | Except.ok n =>
    match claim n with
    | ClaimOutcome.raise e => Except.error e
    | ClaimOutcome.ok none => Except.ok none
    | ClaimOutcome.ok (some row) =>
      match row_message row message_column.name with
      | none => Except.ok none
      | some m => Except.ok (some m)

/-- `PostgresqlBroker.listen` consuming a sequence of payloads: the loop
yields each claimed message and the outer `except` turns any exception of an
iteration into a logged skip, continuing with the next payload. -/
def listen (claim : Int → ClaimOutcome) : List NotifyPayload → List SqlValue
  | [] => []
  | p :: rest =>
    match listen_iteration claim p with
    | Except.ok (some m) => m :: listen claim rest
    | Except.ok none => listen claim rest
    | Except.error _ => listen claim rest

/-- Modelled from the spec: `listen` yields a message for a payload exactly
when the payload parses as an integer, `delete_returning` on that integer
returns a row, and that row's message value is non-null; this definition is
compared with the `listen` embedding of broker.py. -/
def listen_spec_yield (claim : Int → ClaimOutcome) (p : NotifyPayload) :
    Option SqlValue :=
  match py_int p with
  | Except.ok n =>
    match claim n with
    | ClaimOutcome.ok (some row) => row_message row message_column.name
    | _ => none
  | Except.error _ => none

/-- A serialization of the atomic `delete_returning` statements issued by a
set of concurrent callers: the schedule lists the callers in the order the
storage engine serializes their single statements; each caller executes
exactly one claim of the same key and receives its own result. -/
def run_claim_schedule {α : Type} (key : Int) :
    Db → List α → List (α × Option RowDict) × Db
  | db, [] => ([], db)
  | db, caller :: rest =>
    let step := delete_returning db primary_key_column (SqlValue.int key)
      [message_column]
    let tail := run_claim_schedule key step.2 rest
    ((caller, step.1) :: tail.1, tail.2)

/-- Modelled from the spec: positional placeholders numbered from 1 in
argument order, built so that the placeholder list of length n is visibly
the placeholders 1..n in that order. -/
def placeholders_spec : Nat → List String
  | 0 => []
  | n + 1 => placeholders_spec n ++ ["$" ++ toString (n + 1)]

/-- Modelled from the spec: the insert statement lists the column names in
descriptor order, then the positional placeholders 1..n in order, then a
RETURNING clause naming the requested columns exactly when a returning list
is supplied; compared with `InsertQuery.make_query`. -/
def insert_query_spec (table_name : String) (columns : List Column)
    (returning : Option (List Column)) : String :=
  "INSERT INTO " ++ table_name ++ " ("
    ++ String.intercalate ", " (columns.map Column.name)
    ++ ") VALUES ("
    ++ String.intercalate ", " (placeholders_spec columns.length)
    ++ ")"
    ++ (match returning with
        | some ret => " RETURNING " ++ String.intercalate ", " (ret.map Column.name)
        | none => "")

/-- A concrete message row used to evaluate the embeddings. -/
def sample_row : MessageRow :=
  { id := 7, task_id := "task-7", task_name := "demo", message := some [104, 105],
    labels := [], created_at := 0 }

/-- The Python generator `range(1, n + 1)` rendered as placeholders equals
the spec's placeholders 1..n in order. -/
lemma range_map_placeholders (n : Nat) :
    (List.range n).map (fun i => "$" ++ toString (i + 1)) = placeholders_spec n := by
  induction n with
  | zero => rfl
  | succ n ih =>
    rw [List.range_succ, List.map_append, ih]
    rfl

/-- C7: the built insert statement lists the column names in descriptor order
followed by exactly the positional placeholders 1..n in order, appends a
RETURNING clause naming the requested columns exactly when a returning list
is supplied, and equal inputs give equal strings (the builder is a pure
function of its arguments). -/
theorem insert_query_lists_columns_and_placeholders (t : String)
    (cols : List Column) (ret : Option (List Column)) :
    InsertQuery.make_query t cols ret = insert_query_spec t cols ret ∧
    InsertQuery.make_query t cols ret =
      InsertQuery.make_query t cols none ++
        (match ret with
         | some r => " RETURNING " ++ String.intercalate ", " (r.map Column.name)
         | none => "") := by
  constructor
  · unfold InsertQuery.make_query insert_query_spec
    rw [range_map_placeholders]
    cases ret <;> rfl
  · unfold InsertQuery.make_query
    cases ret <;> simp [String.append_empty]

/-- C5: building an insert-or-update statement in overwrite (UPDATE) mode
without the update columns raises `ValueError` at build time, before any
execution; supplying them always yields a statement without raising. -/
theorem insert_or_update_update_mode_fail_fast (t : String) (cols : List Column)
    (ret : Option (List Column)) (conflict : List Column) :
    (∃ msg, InsertOrUpdateQuery.make_query t cols ret conflict
        OnConflictAction.update none = Except.error (PyErr.valueError msg)) ∧
    ∀ upd, ∃ s, InsertOrUpdateQuery.make_query t cols ret conflict
        OnConflictAction.update (some upd) = Except.ok s := by
  exact ⟨⟨_, rfl⟩, fun upd => ⟨_, rfl⟩⟩

/-- C6: building an insert-or-update statement in no-op mode joins the
`Column` objects themselves instead of their names, so for every non-empty
conflict-column list the build raises `TypeError` instead of returning the
`ON CONFLICT (names) DO NOTHING` statement the claim describes. -/
theorem insert_or_update_nothing_mode_type_error (t : String) (cols : List Column)
    (ret : Option (List Column)) (c : Column) (rest : List Column) :
    InsertOrUpdateQuery.make_query t cols ret (c :: rest)
        OnConflictAction.nothing none =
      Except.error (PyErr.typeError
        "sequence item 0: expected str instance, Column found") := by
  rfl

/-- C4: `kick` emits the insert of the message row (returning the generated
key) strictly before the single publish; with a delay label the publish is
deferred to monotonic time now + delay, otherwise it happens at now, and both
branches publish the same NOTIFY statement. -/
theorem kick_inserts_then_notifies (channel : String) (msg : BrokerMessage)
    (now : Int) (new_id : Int) :
    kick channel msg now new_id =
      [KickEvent.insert msg.task_id msg.task_name msg.message new_id,
       KickEvent.notify
         (match msg.labels_delay with
          | some d => now + d
          | none => now)
         (notify_statement channel new_id)] := by
  obtain ⟨tid, tname, m, d⟩ := msg
  cases d <;> rfl

/-- C10: calling `delete_by_date` with `to_date` omitted binds None as the
second parameter of the fixed predicate `created_at BETWEEN $1 AND $2`, and
a BETWEEN whose upper bound is NULL is never true, so the call deletes no
rows at all — on every backend. -/
theorem delete_by_date_omitted_to_date_deletes_nothing (db : Db)
    (from_date : Int) :
    asyncpg_delete_by_date db from_date none = db ∧
    psqlpy_delete_by_date db from_date none = db ∧
    psycopg_delete_by_date db from_date none = db ∧
    DeleteByDateQuery.make_query "taskiq_messages" created_at_column =
      "DELETE FROM taskiq_messages WHERE created_at BETWEEN $1 AND $2" := by
  have hb : ∀ x lo : Option Int, sql_between x lo none ≠ SqlBool.tru := by
    intro x lo
    have hle : sql_le x none = SqlBool.unk := by cases x <;> rfl
    unfold sql_between
    rw [hle]
    cases sql_le lo x <;> simp [sql_and]
  have hrows : delete_by_date_rows db (some from_date) none = db := by
    unfold delete_by_date_rows
    apply List.filter_eq_self.mpr
    intro row _
    simpa using hb (some row.created_at) (some from_date)
  exact ⟨hrows, hrows, hrows, by decide⟩

/-- C8: `exists` honours its boolean contract on psqlpy and psycopg, but the
asyncpg implementation returns the raw `fetchval` result — the integer 1 when
the row is present and Python None when it is absent — neither of which is a
boolean. -/
theorem exists_asyncpg_returns_non_boolean :
    asyncpg_exists [sample_row] 7 = PyValue.int 1 ∧
    asyncpg_exists [] 7 = PyValue.none ∧
    (∀ b : Bool, PyValue.int 1 ≠ PyValue.bool b) ∧
    (∀ b : Bool, PyValue.none ≠ PyValue.bool b) ∧
    psqlpy_exists [sample_row] 7 = true ∧
    psqlpy_exists [] 7 = false ∧
    psycopg_exists [sample_row] 7 = true ∧
    psycopg_exists [] 7 = false := by
  refine ⟨by decide, rfl, ?_, ?_, by decide, rfl, by decide, rfl⟩ <;>
    intro b <;> cases b <;> simp

/-- C3: every listen driver's notification handler applies `int` to the
received payload, so a non-numeric payload raises `ValueError` inside the
handler and is dropped instead of being forwarded verbatim; even a numeric
payload is forwarded parsed, not verbatim. -/
theorem notification_handler_crashes_on_malformed_payload :
    asyncpg_notification_handler [] "not-a-number" =
      Except.error (PyErr.valueError
        "invalid literal for int with base 10: not-a-number") ∧
    psqlpy_notification_handler [] "not-a-number" =
      Except.error (PyErr.valueError
        "invalid literal for int with base 10: not-a-number") ∧
    psycopg_notification_handler [] "not-a-number" =
      Except.error (PyErr.valueError
        "invalid literal for int with base 10: not-a-number") ∧
    asyncpg_notification_handler [] "42" = Except.ok [42] := by
  refine ⟨?_, ?_, ?_, ?_⟩ <;> rfl

/-- C9: for a supported tag whose client library is importable the two
lookups return the backend's matching Driver / Listen Driver class pair; for
a supported tag whose library is absent both raise an `ImportError` whose
message names the backend; for every unknown tag both raise a `ValueError`. -/
theorem driver_selection_lookup (avail : Availability) (driver : String) :
    get_db_driver avail driver =
      (match supported_backend driver with
       | some pair =>
         if backend_available avail driver then Except.ok pair.1
         else Except.error (PyErr.importError (not_installed_message driver))
       | none => Except.error (PyErr.valueError (unsupported_message driver))) ∧
    get_db_listen_driver avail driver =
      (match supported_backend driver with
       | some pair =>
         if backend_available avail driver then Except.ok pair.2
         else Except.error (PyErr.importError (not_installed_message driver))
       | none => Except.error (PyErr.valueError (unsupported_message driver))) ∧
    (∃ rest, not_installed_message driver = driver ++ rest) := by
  obtain ⟨a, b, c⟩ := avail
  refine ⟨?_, ?_, ⟨_, rfl⟩⟩ <;>
  · simp only [get_db_driver, get_db_listen_driver, supported_backend,
      backend_available, import_from_drivers]
    by_cases h1 : driver == "asyncpg" <;> by_cases h2 : driver == "psqlpy" <;>
      by_cases h3 : driver == "psycopg" <;>
        simp only [h1, h2, h3, if_true, if_false, Bool.false_eq_true] <;>
          cases a <;> cases b <;> cases c <;> rfl

/-- `listen` equals the per-payload yield condition mapped over the payload
sequence. -/
lemma listen_eq_filterMap (claim : Int → ClaimOutcome) (ps : List NotifyPayload) :
    listen claim ps = ps.filterMap (listen_spec_yield claim) := by
  induction ps with
  | nil => rfl
  | cons p rest ih =>
    have hstep : (match listen_iteration claim p with
        | Except.ok (some m) => some m
        | Except.ok none => none
        | Except.error _ => (none : Option SqlValue)) = listen_spec_yield claim p := by
      unfold listen_iteration listen_spec_yield
      cases hp : py_int p with
      | error e => rfl
      | ok n =>
        cases hc : claim n with
        | raise e => simp [hc]
        | ok r =>
          cases r with
          | none => simp [hc]
          | some row =>
            cases hm : row_message row message_column.name <;> simp [hc, hm]
    rw [List.filterMap_cons, ← hstep]
    show (match listen_iteration claim p with
      | Except.ok (some m) => m :: listen claim rest
      | Except.ok none => listen claim rest
      | Except.error _ => listen claim rest) = _
    cases listen_iteration claim p with
    | error e => exact ih
    | ok o => cases o <;> simp [ih]

/-- C2: the broker's `listen` yields a message for a payload exactly when the
payload parses as an integer, the claim returns a row, and the row's message
value is non-null (the filterMap equation); every other case — parse failure,
absent claim, missing message, or a raised exception — is skipped, and the
sequence continues across any prefix (the append equation) instead of
raising or terminating. -/
theorem listen_yields_exactly_claimed (claim : Int → ClaimOutcome)
    (ps : List NotifyPayload) :
    listen claim ps = ps.filterMap (listen_spec_yield claim) ∧
    ∀ qs, listen claim (ps ++ qs) = listen claim ps ++ listen claim qs := by
  refine ⟨listen_eq_filterMap claim ps, fun qs => ?_⟩
  rw [listen_eq_filterMap, listen_eq_filterMap, listen_eq_filterMap,
    List.filterMap_append]

/-- The NULL guard of the claim predicate is vacuous for an integer key. -/
lemma matches_point (key : Int) (row : MessageRow) :
    (!(SqlValue.int key == SqlValue.null) &&
        (row.get primary_key_column.name == SqlValue.int key))
      = (row.get primary_key_column.name == SqlValue.int key) := by
  have h : (SqlValue.int key == SqlValue.null) = false := rfl
  rw [h]
  simp

/-- Evaluation of the atomic claim statement on the table model. -/
lemma delete_returning_eval (db : Db) (key : Int) :
    delete_returning db primary_key_column (SqlValue.int key) [message_column] =
      ((rows_with_id db key).head?.map
        (fun row => [(message_column.name, row.get message_column.name)]),
       db.filter (fun row => !(row.get primary_key_column.name == SqlValue.int key))) := by
  unfold delete_returning rows_with_id
  simp only [matches_point]
  rfl

/-- After a claim of `key`, no row with that key remains. -/
lemma rows_with_id_after_delete (db : Db) (key : Int) :
    rows_with_id
      (db.filter (fun row => !(row.get primary_key_column.name == SqlValue.int key)))
      key = [] := by
  unfold rows_with_id
  rw [List.filter_filter]
  simp

/-- A claim of an absent key returns `none` and leaves the key absent. -/
lemma delete_returning_absent (db : Db) (key : Int)
    (h : rows_with_id db key = []) :
    (delete_returning db primary_key_column (SqlValue.int key) [message_column]).1
        = none ∧
    rows_with_id
      (delete_returning db primary_key_column (SqlValue.int key) [message_column]).2
      key = [] := by
  rw [delete_returning_eval]
  exact ⟨by rw [h]; rfl, rows_with_id_after_delete db key⟩

/-- Every caller serialized after the key has been deleted receives absent. -/
lemma run_claim_schedule_absent {α : Type} (key : Int) (db : Db) (cs : List α)
    (h : rows_with_id db key = []) :
    (run_claim_schedule key db cs).1 = cs.map (fun caller => (caller, none)) ∧
    rows_with_id (run_claim_schedule key db cs).2 key = [] := by
  induction cs generalizing db with
  | nil => exact ⟨rfl, h⟩
  | cons c cs ih =>
    have h1 := delete_returning_absent db key h
    have ih2 := ih _ h1.2
    refine ⟨?_, ?_⟩
    · show (c, (delete_returning db primary_key_column (SqlValue.int key)
            [message_column]).1)
          :: (run_claim_schedule key
              (delete_returning db primary_key_column (SqlValue.int key)
                [message_column]).2 cs).1 = _
      rw [h1.1, ih2.1, List.map_cons]
    · show rows_with_id
          (run_claim_schedule key
            (delete_returning db primary_key_column (SqlValue.int key)
              [message_column]).2 cs).2 key = []
      exact ih2.2

/-- C1: for a table holding exactly one row with the claimed key, any
serialization of the atomic `delete_returning` statements of a set of
concurrent callers gives the requested columns of the row to exactly the
first serialized caller, gives absent to every other caller, and leaves the
row deleted. -/
theorem delete_returning_single_winner {α : Type} (db : Db) (key : Int)
    (r : MessageRow) (c0 : α) (rest : List α)
    (hr : rows_with_id db key = [r]) :
    (run_claim_schedule key db (c0 :: rest)).1 =
      (c0, some [(message_column.name, r.get message_column.name)])
        :: rest.map (fun caller => (caller, none)) ∧
    rows_with_id (run_claim_schedule key db (c0 :: rest)).2 key = [] := by
  have h1 := delete_returning_eval db key
  have hrem : rows_with_id
      (delete_returning db primary_key_column (SqlValue.int key)
        [message_column]).2 key = [] := by
    rw [h1]
    exact rows_with_id_after_delete db key
  have habs := run_claim_schedule_absent key _ rest hrem
  refine ⟨?_, ?_⟩
  · show (c0, (delete_returning db primary_key_column (SqlValue.int key)
          [message_column]).1)
        :: (run_claim_schedule key
            (delete_returning db primary_key_column (SqlValue.int key)
              [message_column]).2 rest).1 = _
    rw [habs.1, h1]
    simp [hr]
  · show rows_with_id
        (run_claim_schedule key
          (delete_returning db primary_key_column (SqlValue.int key)
            [message_column]).2 rest).2 key = []
    exact habs.2

/-- Witness for C1: three callers racing for the sample row with key 7; the
first serialized caller gets the message bytes, the other two get absent, and
the row is gone. -/
theorem delete_returning_single_winner_witness :
    rows_with_id [sample_row] 7 = [sample_row] ∧
    (run_claim_schedule 7 [sample_row] ([0, 1, 2] : List Nat)).1 =
      (0, some [(message_column.name, sample_row.get message_column.name)])
        :: ([1, 2] : List Nat).map (fun caller => (caller, none)) ∧
    rows_with_id (run_claim_schedule 7 [sample_row] ([0, 1, 2] : List Nat)).2 7
      = [] := by
  have h := delete_returning_single_winner [sample_row] 7 sample_row 0 [1, 2]
    (by decide)
  exact ⟨by decide, h.1, h.2⟩

end TaskiqPostgresql
